import Mathlib

/-!
Verification of the `stun` SSH tunnel supervisor.

Rust strings are modelled as `List Char`; `u16`/`u32`/`u64` values are
modelled as `Nat` with explicit saturation at `2 ^ 64 - 1` where the source
uses `saturating_mul`.  Fallible functions return `Except StunError`.
Definitions mirror the source files `src/forwarding.rs`, `src/config.rs`,
`src/health.rs`, `src/ssh.rs` and `src/manager.rs`.
-/

namespace Stun

/-- Rust `String` / `&str`, modelled as a list of characters. -/
abbrev Str := List Char

/-- `error.rs`: the error kinds used by the code paths modelled here.
Messages are carried verbatim where the source builds them by formatting. -/
inductive StunError where
  | Config : Str → StunError
  | Ssh : Str → StunError
  deriving Repr, DecidableEq

deriving instance DecidableEq for Except

/-- `true` iff an `Except` result is an error (Rust `Result::is_err`). -/
def isErr {α : Type} : Except StunError α → Bool
  | .error _ => true
  | .ok _ => false

/-- `forwarding.rs`: `ForwardingSpec` — one port-forwarding descriptor. -/
structure ForwardingSpec where
  bind_address : Option Str
  bind_port : Nat
  remote_host : Str
  remote_port : Nat
  deriving Repr, DecidableEq

/-- Rust `str::split(':')`: split at every colon, keeping empty pieces.
`splitOnColon [] = [[]]`, matching Rust where `"".split(':')` yields `[""]`. -/
def splitOnColon : Str → List Str
  | [] => [[]]
  | c :: rest =>
    if c = ':' then [] :: splitOnColon rest
    else
      match splitOnColon rest with
      | [] => [[c]]
      | p :: ps => (c :: p) :: ps

/-- Numeric value of a digit string, most significant digit first
(the accumulator loop used by integer parsing). -/
def digitsVal (l : Str) : Nat :=
  l.foldl (fun acc c => acc * 10 + (c.toNat - 48)) 0

/-- Drop one leading `'+'` if present (Rust unsigned `from_str` accepts it). -/
def strip_plus : Str → Str
  | [] => []
  | c :: rest => if c = '+' then rest else c :: rest

/-- Rust `str::parse::<u16>()`: optional leading `'+'`, then one or more
ASCII digits, value at most `65535`; anything else is an error (`none`). -/
def parse_u16 (l : Str) : Option Nat :=
  let body := strip_plus l
  if body ≠ [] ∧ body.all Char.isDigit = true ∧ digitsVal body ≤ 65535 then
    some (digitsVal body)
  else
    none

/-- `forwarding.rs`: `ForwardingSpec::parse`.  Splits the input on every
`':'` and accepts exactly 3 parts (`port:host:port`) or 4 parts
(`address:port:host:port`); ports must parse as `u16`. -/
def parse (spec : Str) : Except StunError ForwardingSpec :=
  match splitOnColon spec with
  | [p0, p1, p2] =>
    match parse_u16 p0, parse_u16 p2 with
    | some bind_port, some remote_port =>
      .ok { bind_address := none, bind_port := bind_port,
            remote_host := p1, remote_port := remote_port }
    | none, _ => .error (.Config ("Invalid bind port: ".toList ++ p0))
    | some _, none => .error (.Config ("Invalid remote port: ".toList ++ p2))
  | [p0, p1, p2, p3] =>
    match parse_u16 p1, parse_u16 p3 with
    | some bind_port, some remote_port =>
      .ok { bind_address := some p0, bind_port := bind_port,
            remote_host := p2, remote_port := remote_port }
    | none, _ => .error (.Config ("Invalid bind port: ".toList ++ p1))
    | some _, none => .error (.Config ("Invalid remote port: ".toList ++ p3))
  | _ =>
    .error (.Config ("Invalid forwarding specification ".toList ++ spec))

/-- Fuel-driven digit emitter: with `n < fuel` it produces the canonical
decimal digits of `n`, most significant first. -/
def natReprAux : Nat → Nat → Str
  | 0, _ => []
  | fuel + 1, n =>
    if n < 10 then [Char.ofNat (48 + n)]
    else natReprAux fuel (n / 10) ++ [Char.ofNat (48 + n % 10)]

/-- Canonical decimal digits of `n`, most significant first
(Rust `Display` for unsigned integers). -/
def natRepr (n : Nat) : Str := natReprAux (n + 1) n

/-- `forwarding.rs`: `ForwardingSpec::to_ssh_arg`. -/
def ForwardingSpec.to_ssh_arg (s : ForwardingSpec) : Str :=
  match s.bind_address with
  | some addr =>
    addr ++ ':' :: natRepr s.bind_port ++ ':' :: s.remote_host
      ++ ':' :: natRepr s.remote_port
  | none =>
    natRepr s.bind_port ++ ':' :: s.remote_host ++ ':' :: natRepr s.remote_port

/-- `manager.rs`: the value `u64::MAX`, the saturation bound of `u64`. -/
def U64_MAX : Nat := 2 ^ 64 - 1

/-- Rust `u64::saturating_mul`: multiply, clamping at `u64::MAX`. -/
def u64_saturating_mul (a b : Nat) : Nat := min (a * b) U64_MAX

/-- Rust `u64::div_ceil`: division rounding up (no intermediate overflow). -/
def div_ceil (a b : Nat) : Nat := (a + b - 1) / b

/-- `manager.rs`: `jitter_secs` — deterministic jittered delay in seconds,
`ceil(base * pct / 100)` with `pct = 80 + ((bind_port XOR remote_port) % 41)`,
computed with `u64` saturating multiplication. -/
def jitter_secs (base_secs : Nat) (spec : ForwardingSpec) : Nat :=
  let seed := Nat.xor spec.bind_port spec.remote_port
  let jitter_pct := 80 + seed % 41
  div_ceil (u64_saturating_mul base_secs jitter_pct) 100

/-- `config.rs`: `ForwardingMode`. -/
inductive ForwardingMode where
  | Local
  | Remote
  deriving Repr, DecidableEq

/-- `config.rs`: `RemoteConfig`. -/
structure RemoteConfig where
  host : Str
  port : Nat
  user : Str
  key : Option Str
  deriving Repr, DecidableEq

/-- `config.rs`: `Config`.  The `remote_probes` `HashMap` is modelled as an
association list (first match wins on lookup). -/
structure Config where
  mode : ForwardingMode
  remote : RemoteConfig
  forwarding_list : List Str
  timeout : Option Nat
  remote_probes : Option (List (Str × Str))
  backoff_base_secs : Option Nat
  backoff_max_secs : Option Nat
  deriving Repr, DecidableEq

/-- Rust `str::rsplit_once(':')`: split at the last colon, if any. -/
def rsplit_once_colon : Str → Option (Str × Str)
  | [] => none
  | c :: rest =>
    match rsplit_once_colon rest with
    | some (a, b) => some (c :: a, b)
    | none => if c = ':' then some ([], rest) else none

/-- `config.rs` (`Config::validate`): the probe-target split via
`rsplitn(2, ':')` — after the last colon is the port, before it the host;
with no colon the whole string is the port and the host is empty. -/
def probe_target_parts (target : Str) : Str × Str :=
  match rsplit_once_colon target with
  | some (host, port_str) => (host, port_str)
  | none => ([], target)

/-- `config.rs`: `Config::validate_forwarding_spec` — split on every `':'`,
require 3 or 4 parts, and require the port positions to parse as `u16`.
Ports are checked in source order (bind port first). -/
def validate_forwarding_spec (spec : Str) : Except StunError Unit :=
  match splitOnColon spec with
  | [p0, _, p2] =>
    match parse_u16 p0 with
    | none => .error (.Config ("Invalid port ".toList ++ p0))
    | some _ =>
      match parse_u16 p2 with
      | none => .error (.Config ("Invalid port ".toList ++ p2))
      | some _ => .ok ()
  | [_, p1, _, p3] =>
    match parse_u16 p1 with
    | none => .error (.Config ("Invalid port ".toList ++ p1))
    | some _ =>
      match parse_u16 p3 with
      | none => .error (.Config ("Invalid port ".toList ++ p3))
      | some _ => .ok ()
  | _ =>
    .error (.Config ("Invalid forwarding specification ".toList ++ spec))

/-- `config.rs` (`Config::validate`): check every forwarding spec in order. -/
def validate_specs : List Str → Except StunError Unit
  | [] => .ok ()
  | s :: rest =>
    match validate_forwarding_spec s with
    | .error e => .error e
    | .ok _ => validate_specs rest

/-- `config.rs` (`Config::validate`): check each `remote_probes` entry:
its key must be a configured forwarding spec and its target must be a
well-formed `host:port` with a `u16` port. -/
def validate_probes_list (fl : List Str) : List (Str × Str) → Except StunError Unit
  | [] => .ok ()
  | (spec_key, target) :: rest =>
    if fl.contains spec_key = false then
      .error (.Config ("remote_probes key does not match: ".toList ++ spec_key))
    else
      let hp := probe_target_parts target
      if hp.1 = [] ∨ hp.2 = [] then
        .error (.Config ("Invalid remote_probe target ".toList ++ target))
      else
        match parse_u16 hp.2 with
        | none => .error (.Config ("Invalid port in remote_probe target ".toList ++ target))
        | some _ => validate_probes_list fl rest

/-- `config.rs` (`Config::validate`): the backoff-setting checks. -/
def validate_backoff (c : Config) : Except StunError Unit :=
  if c.backoff_base_secs = some 0 then
    .error (.Config "backoff_base_secs must be >= 1".toList)
  else if c.backoff_max_secs = some 0 then
    .error (.Config "backoff_max_secs must be >= 1".toList)
  else
    match c.backoff_base_secs, c.backoff_max_secs with
    | some base, some max_s =>
      if max_s < base then
        .error (.Config "backoff_max_secs must be >= backoff_base_secs".toList)
      else .ok ()
    | _, _ => .ok ()

/-- `config.rs`: `Config::validate`. -/
def Config.validate (c : Config) : Except StunError Unit :=
  if c.remote.host = [] then .error (.Config "Remote host cannot be empty".toList)
  else if c.remote.user = [] then .error (.Config "Remote user cannot be empty".toList)
  else if c.forwarding_list = [] then
    .error (.Config "Forwarding list cannot be empty".toList)
  else
    match validate_specs c.forwarding_list with
    | .error e => .error e
    | .ok _ =>
      match c.remote_probes with
      | some m =>
        match validate_probes_list c.forwarding_list m with
        | .error e => .error e
        | .ok _ => validate_backoff c
      | none => validate_backoff c

/-- `ssh.rs`: `SshClient::remote_probe_target` — look up the probe target for
`spec.to_ssh_arg()` in `remote_probes` and parse it as `host:port`. -/
def remote_probe_target (c : Config) (spec : ForwardingSpec) : Option (Str × Nat) :=
  match c.remote_probes with
  | none => none
  | some m =>
    match m.lookup spec.to_ssh_arg with
    | none => none
    | some target =>
      match rsplit_once_colon target with
      | none => none
      | some (host, port_str) =>
        match parse_u16 port_str with
        | some port => some (host, port)
        | none => none

/-- `health.rs`: `TunnelHealth`. -/
inductive TunnelHealth where
  | Healthy
  | Down
  | Unknown
  deriving Repr, DecidableEq

/-- `health.rs`: `TunnelHealth::is_healthy`. -/
def TunnelHealth.is_healthy : TunnelHealth → Bool
  | .Healthy => true
  | _ => false

/-- `manager.rs`: `TunnelInfo` — per-tunnel record.  The child process handle
is modelled as `Option Unit` (only presence matters to the state machine);
`Instant` is modelled as a `Nat` timestamp in seconds. -/
structure TunnelInfo where
  process : Option Unit
  health : TunnelHealth
  spec : ForwardingSpec
  failure_count : Nat
  next_restart_at : Option Nat
  backoff_secs : Nat
  deriving Repr, DecidableEq

/-- `manager.rs` (`start` / `start_background`): the record inserted for each
parsed spec before the initial spawn. -/
def init_info (backoff_base_secs : Nat) (spec : ForwardingSpec) : TunnelInfo :=
  { process := none, health := .Unknown, spec := spec,
    failure_count := 0, next_restart_at := none,
    backoff_secs := backoff_base_secs }

/-- `manager.rs`: `TunnelManager` — the supervisor.  The I/O handles
(`ssh_client`, `health_checker`, `shutdown_tx`) are omitted; the fields
that determine supervisor behaviour are kept. -/
structure TunnelManager where
  config : Config
  tunnels : List (Str × TunnelInfo)
  health_check_interval : Nat
  max_failures : Nat
  timeout : Nat
  backoff_base_secs : Nat
  backoff_max_secs : Nat
  deriving Repr, DecidableEq

/-- `manager.rs`: `TunnelManager::new` — validate the config and build a
supervisor with an **empty** record map and the defaulted parameters. -/
def TunnelManager.new (config : Config) : Except StunError TunnelManager :=
  match config.validate with
  | .error e => .error e
  | .ok _ =>
    .ok { config := config, tunnels := [],
          health_check_interval := 5, max_failures := 3,
          timeout := config.timeout.getD 2,
          backoff_base_secs := config.backoff_base_secs.getD 1,
          backoff_max_secs := config.backoff_max_secs.getD 30 }

/-- `manager.rs`: `TunnelManager::get_status` — snapshot of key → health. -/
def TunnelManager.get_status (m : TunnelManager) : List (Str × TunnelHealth) :=
  m.tunnels.map (fun kt => (kt.1, kt.2.health))

/-- Environment of one per-record health check in `perform_health_checks`:
the outcomes of the I/O actions the check may perform.
`alive_result` is what `check_ssh_process` would report for a present child;
`local_probe` is the result of `check_forwarding`; `probe_target` is the
value of `remote_probe_target`; `remote_probe` the result of
`remote_tcp_probe`; `now` the value of `Instant::now()`; `restart_result`
the outcome of `start_forwarding`. -/
structure CheckEnv where
  alive_result : Bool
  is_local_mode : Bool
  local_probe : Bool
  probe_target : Option (Str × Nat)
  remote_probe : Except StunError Bool
  now : Nat
  restart_result : Except StunError Unit

/-- `manager.rs` (`perform_health_checks`): `process_alive` — false when the
record holds no child, else the liveness poll result. -/
def process_alive_flag (env : CheckEnv) (info : TunnelInfo) : Bool :=
  info.process.isSome && env.alive_result

/-- `manager.rs` (`perform_health_checks`): `forwarding_healthy` — local TCP
probe in local mode; in remote mode the configured remote TCP probe
(errors count as `false`), or `true` when no probe is configured. -/
def forwarding_healthy_flag (env : CheckEnv) (info : TunnelInfo) : Bool :=
  if process_alive_flag env info && env.is_local_mode then
    env.local_probe
  else
    if process_alive_flag env info && !env.is_local_mode then
      match env.probe_target with
      | some _ =>
        match env.remote_probe with
        | .ok b => b
        | .error _ => false
      | none => true
    else false

/-- `manager.rs` (`perform_health_checks`): `is_healthy` — note the source
uses `process_alive && forwarding_healthy` only in local mode and bare
`process_alive` in remote mode. -/
def is_healthy_flag (env : CheckEnv) (info : TunnelInfo) : Bool :=
  if env.is_local_mode then
    process_alive_flag env info && forwarding_healthy_flag env info
  else
    process_alive_flag env info

/-- `manager.rs` (`perform_health_checks`, the restart attempt): commit after
`start_forwarding`.  Success: new child, `Unknown`, counters reset,
`backoff_secs = 1`.  Failure: no child, `Down`, `next_restart_at` pushed out
by the jittered doubled backoff, `failure_count` written back unchanged. -/
def attempt_restart (backoff_max_secs : Nat) (restart_result : Except StunError Unit)
    (spec : ForwardingSpec) (failure_count backoff_secs now : Nat)
    (info : TunnelInfo) : TunnelInfo :=
  match restart_result with
  | .ok _ =>
    { info with process := some (), health := .Unknown, failure_count := 0,
                next_restart_at := none, backoff_secs := 1 }
  | .error _ =>
    let grown := min (u64_saturating_mul backoff_secs 2) backoff_max_secs
    { info with process := none, health := .Down,
                failure_count := failure_count,
                next_restart_at := some (now + jitter_secs grown spec),
                backoff_secs := grown }

/-- `manager.rs`: one per-record iteration of `perform_health_checks`,
from taking the child out to the commit under the write lock. -/
def check_step (max_failures backoff_max_secs : Nat) (env : CheckEnv)
    (info : TunnelInfo) : TunnelInfo :=
  if is_healthy_flag env info then
    { info with health := .Healthy, failure_count := 0,
                next_restart_at := none, backoff_secs := 1 }
  else
    if max_failures ≤ info.failure_count + 1 then
      match info.next_restart_at with
      | some t =>
        if env.now < t then
          { info with health := .Down, failure_count := info.failure_count + 1,
                      next_restart_at := some t }
        else
          attempt_restart backoff_max_secs env.restart_result info.spec
            (info.failure_count + 1) info.backoff_secs env.now info
      | none =>
        { info with process := none, health := .Down,
                    failure_count := info.failure_count + 1,
                    next_restart_at :=
                      some (env.now + jitter_secs (max info.backoff_secs 1) info.spec),
                    backoff_secs := max info.backoff_secs 1 }
    else
      { info with health := .Down, failure_count := info.failure_count + 1 }

/-- `manager.rs` (`start_all_tunnels`): apply one spawn result to a record,
only if the record is still without a child. -/
def spawn_commit (res : Except StunError Unit) (info : TunnelInfo) : TunnelInfo :=
  if info.process.isSome then info
  else
    match res with
    | .ok _ => { info with process := some (), health := .Unknown, failure_count := 0 }
    | .error _ => { info with health := .Down }

/-- `manager.rs`: `start_all_tunnels` — spawn every record that has no child
and commit each result; spawn errors mark the record `Down` and are not
propagated, so the function always returns `Ok`. -/
def start_all_tunnels (spawn : ForwardingSpec → Except StunError Unit)
    (tunnels : List (Str × TunnelInfo)) : Except StunError (List (Str × TunnelInfo)) :=
  .ok (tunnels.map (fun kt =>
    if kt.2.process.isNone then (kt.1, spawn_commit (spawn kt.2.spec) kt.2) else kt))

/-- `manager.rs` (`start` / `start_background`): parse every forwarding spec,
aborting on the first parse error. -/
def parse_all : List Str → Except StunError (List ForwardingSpec)
  | [] => .ok []
  | s :: rest =>
    match parse s with
    | .error e => .error e
    | .ok sp =>
      match parse_all rest with
      | .error e => .error e
      | .ok sps => .ok (sp :: sps)

/-- `manager.rs` (`start` / `start_background`): the record map built from the
parsed specs, keyed by `to_ssh_arg`. -/
def init_records (backoff_base_secs : Nat) (specs : List ForwardingSpec) :
    List (Str × TunnelInfo) :=
  specs.map (fun sp => (sp.to_ssh_arg, init_info backoff_base_secs sp))

/-- `manager.rs` (`start` / `start_background`): the startup sequence up to
the management loop — parse all specs, build the record map, run the initial
spawn.  The only error source is spec parsing. -/
def manager_start_records (m : TunnelManager)
    (spawn : ForwardingSpec → Except StunError Unit) :
    Except StunError (List (Str × TunnelInfo)) :=
  match parse_all m.config.forwarding_list with
  | .error e => .error e
  | .ok specs => start_all_tunnels spawn (init_records m.backoff_base_secs specs)

/-- Reachable per-record states of the supervisor: a record is created by
initialization, receives at most one initial-spawn commit right after
initialization (`start_all_tunnels` runs immediately after the map is
built), then evolves by per-record health-check commits; `stop_all_tunnels`
takes the child out. -/
inductive Reachable (max_failures backoff_max_secs base : Nat) : TunnelInfo → Prop where
  | init (spec : ForwardingSpec) :
      Reachable max_failures backoff_max_secs base (init_info base spec)
  | spawn (spec : ForwardingSpec) (res : Except StunError Unit) :
      Reachable max_failures backoff_max_secs base
        (spawn_commit res (init_info base spec))
  | check (info : TunnelInfo) (env : CheckEnv) :
      Reachable max_failures backoff_max_secs base info →
      Reachable max_failures backoff_max_secs base
        (check_step max_failures backoff_max_secs env info)
  | stop (info : TunnelInfo) :
      Reachable max_failures backoff_max_secs base info →
      Reachable max_failures backoff_max_secs base { info with process := none }

/-- The claimed state invariant: a pending restart deadline implies the
failure threshold was reached and the record holds no child. -/
def restart_inv (max_failures : Nat) (info : TunnelInfo) : Prop :=
  info.next_restart_at.isSome = true →
    max_failures ≤ info.failure_count ∧ info.process = none

/-! Concrete fixtures, taken from the repository's own test data. -/

/-- The spec `8080:127.0.0.1:9000` used throughout the source's tests. -/
def spec0 : ForwardingSpec :=
  { bind_address := none, bind_port := 8080,
    remote_host := "127.0.0.1".toList, remote_port := 9000 }

/-- The local-mode test config from `manager.rs` (`create_test_config`). -/
def cfg_test : Config :=
  { mode := .Local,
    remote := { host := "127.0.0.1".toList, port := 22,
                user := "testuser".toList, key := none },
    forwarding_list := ["18080:127.0.0.1:8080".toList, "19000:127.0.0.1:9000".toList],
    timeout := some 1,
    remote_probes := none,
    backoff_base_secs := none,
    backoff_max_secs := none }

/-- The supervisor `TunnelManager::new cfg_test` constructs. -/
def m_test : TunnelManager :=
  { config := cfg_test, tunnels := [],
    health_check_interval := 5, max_failures := 3, timeout := 1,
    backoff_base_secs := 1, backoff_max_secs := 30 }

/-- `cfg_test` with a configured backoff base of 5 seconds. -/
def cfg5 : Config :=
  { cfg_test with backoff_base_secs := some 5, backoff_max_secs := some 30 }

/-- A record whose backoff floor came from the configured base 5 and that
currently holds a live child. -/
def info5 : TunnelInfo :=
  { process := some (), health := .Down, spec := spec0,
    failure_count := 2, next_restart_at := none, backoff_secs := 5 }

/-- A local-mode tick on which the child is alive and the local probe
succeeds: the record is judged healthy. -/
def env_healthy : CheckEnv :=
  { alive_result := true, is_local_mode := true, local_probe := true,
    probe_target := none, remote_probe := .ok true, now := 100,
    restart_result := .ok () }

/-- A remote-mode config with a probe target configured for
`8080:127.0.0.1:8080` (end-to-end scenario 6 of the spec). -/
def cfg_remote : Config :=
  { mode := .Remote,
    remote := { host := "example.com".toList, port := 22,
                user := "admin".toList, key := none },
    forwarding_list := ["8080:127.0.0.1:8080".toList],
    timeout := some 2,
    remote_probes := some [("8080:127.0.0.1:8080".toList, "db.internal:5432".toList)],
    backoff_base_secs := none,
    backoff_max_secs := none }

/-- The spec `8080:127.0.0.1:8080` of `cfg_remote`. -/
def spec_r : ForwardingSpec :=
  { bind_address := none, bind_port := 8080,
    remote_host := "127.0.0.1".toList, remote_port := 8080 }

/-- A remote-mode tick: the child is alive, a probe target is configured,
and the remote TCP probe reports `false`. -/
def env_r : CheckEnv :=
  { alive_result := true, is_local_mode := false, local_probe := false,
    probe_target := remote_probe_target cfg_remote spec_r,
    remote_probe := .ok false, now := 0,
    restart_result := .error (.Ssh "unused".toList) }

/-- A record for `spec_r` holding a live child. -/
def info_r : TunnelInfo :=
  { process := some (), health := .Unknown, spec := spec_r,
    failure_count := 0, next_restart_at := none, backoff_secs := 1 }

/-- A spawn invoker that fails for the first test forwarding (bind port
18080) and succeeds for every other spec. -/
def spawn_test (sp : ForwardingSpec) : Except StunError Unit :=
  if sp.bind_port = 18080 then .error (.Ssh "Failed to start SSH process".toList)
  else .ok ()

/-- The parsed specs of `cfg_test.forwarding_list`. -/
def specs_test : List ForwardingSpec :=
  [{ bind_address := none, bind_port := 18080,
     remote_host := "127.0.0.1".toList, remote_port := 8080 },
   { bind_address := none, bind_port := 19000,
     remote_host := "127.0.0.1".toList, remote_port := 9000 }]

/-- The bracketed-IPv6 input from the spec's accepted-inputs list. -/
def s_ipv6 : Str := "[::1]:80:localhost:80".toList

/-- The 4-part spec `0.0.0.0:8080:192.168.1.10:9000` from the source tests. -/
def spec4 : ForwardingSpec :=
  { bind_address := some "0.0.0.0".toList, bind_port := 8080,
    remote_host := "192.168.1.10".toList, remote_port := 9000 }

/-- `u64::MAX` as a concrete backoff base (overflow boundary for jitter). -/
def b_huge : Nat := 18446744073709551615

end Stun

namespace Stun

/-! Helper lemmas about splitting and decimal digits. -/

theorem splitOnColon_no_colon (l : Str) (h : ':' ∉ l) : splitOnColon l = [l] := by
  induction l with
  | nil => rfl
  | cons c t ih =>
    have hc : ¬(c = ':') := by
      intro e
      exact h (e ▸ List.mem_cons_self c t)
    have ht : ':' ∉ t := fun m => h (List.mem_cons_of_mem _ m)
    simp [splitOnColon, hc, ih ht]

theorem splitOnColon_append (xs ys : Str) (h : ':' ∉ xs) :
    splitOnColon (xs ++ ':' :: ys) = xs :: splitOnColon ys := by
  induction xs with
  | nil => simp [splitOnColon]
  | cons c t ih =>
    have hc : ¬(c = ':') := by
      intro e
      exact h (e ▸ List.mem_cons_self c t)
    have ht : ':' ∉ t := fun m => h (List.mem_cons_of_mem _ m)
    simp [splitOnColon, hc, ih ht]

theorem splitOnColon_length (l : Str) :
    (splitOnColon l).length = l.count ':' + 1 := by
  induction l with
  | nil => simp [splitOnColon]
  | cons c t ih =>
    by_cases hc : c = ':'
    · subst hc
      simp [splitOnColon, List.count_cons, ih]
    · rw [List.count_cons]
      simp only [splitOnColon, if_neg hc]
      cases hsp : splitOnColon t with
      | nil => rw [hsp] at ih; simp at ih
      | cons p ps =>
        rw [hsp] at ih
        simp only [List.length_cons] at ih ⊢
        simp only [beq_iff_eq, if_neg hc]
        omega

theorem digitChar_isDigit (d : Nat) (h : d < 10) :
    (Char.ofNat (48 + d)).isDigit = true := by
  interval_cases d <;> decide

theorem digitChar_toNat (d : Nat) (h : d < 10) :
    (Char.ofNat (48 + d)).toNat = 48 + d := by
  interval_cases d <;> decide

theorem digitsVal_append_digit (xs : Str) (c : Char) :
    digitsVal (xs ++ [c]) = digitsVal xs * 10 + (c.toNat - 48) := by
  simp [digitsVal, List.foldl_append]

theorem natReprAux_spec (fuel : Nat) :
    ∀ n, n < fuel →
      natReprAux fuel n ≠ [] ∧ (∀ c ∈ natReprAux fuel n, c.isDigit = true) ∧
        digitsVal (natReprAux fuel n) = n := by
  induction fuel with
  | zero => intro n hn; omega
  | succ fuel ih =>
    intro n hn
    by_cases h10 : n < 10
    · refine ⟨?_, ?_, ?_⟩
      · simp [natReprAux, h10]
      · intro c hc
        simp [natReprAux, h10] at hc
        subst hc
        exact digitChar_isDigit n h10
      · simp [natReprAux, h10, digitsVal]
        have := digitChar_toNat n h10
        omega
    · have hdiv : n / 10 < n := Nat.div_lt_self (by omega) (by omega)
      obtain ⟨hne, hdig, hval⟩ := ih (n / 10) (by omega)
      have hmod : n % 10 < 10 := Nat.mod_lt n (by omega)
      refine ⟨?_, ?_, ?_⟩
      · simp [natReprAux, h10]
      · intro c hc
        simp only [natReprAux, if_neg h10, List.mem_append, List.mem_singleton] at hc
        rcases hc with hc | hc
        · exact hdig c hc
        · subst hc
          exact digitChar_isDigit (n % 10) hmod
      · simp only [natReprAux, if_neg h10]
        rw [digitsVal_append_digit, hval, digitChar_toNat (n % 10) hmod]
        omega

theorem natRepr_spec (n : Nat) :
    natRepr n ≠ [] ∧ (∀ c ∈ natRepr n, c.isDigit = true) ∧
      digitsVal (natRepr n) = n :=
  natReprAux_spec (n + 1) n (by omega)

theorem natRepr_no_colon (n : Nat) : ':' ∉ natRepr n := by
  intro hm
  have := (natRepr_spec n).2.1 ':' hm
  exact absurd this (by decide)

theorem parse_u16_natRepr (n : Nat) (h : n ≤ 65535) :
    parse_u16 (natRepr n) = some n := by
  obtain ⟨hne, hdig, hval⟩ := natRepr_spec n
  obtain ⟨c, t, hct⟩ := List.exists_cons_of_ne_nil hne
  have hcdig : c.isDigit = true := hdig c (by rw [hct]; exact List.mem_cons_self c t)
  have hcne : ¬(c = '+') := by
    intro e
    rw [e] at hcdig
    exact absurd hcdig (by decide)
  have hall : (c :: t).all Char.isDigit = true := by
    rw [List.all_eq_true]
    intro x hx
    exact hdig x (by rw [hct]; exact hx)
  have hv : digitsVal (c :: t) = n := by rw [← hct]; exact hval
  rw [parse_u16, hct]
  simp only [strip_plus, if_neg hcne]
  rw [if_pos ⟨by simp, hall, by omega⟩, hv]

/-! The parse / to_ssh_arg round trip on colon-free components. -/

theorem parse_to_ssh_arg (sp : ForwardingSpec)
    (hba : ∀ a, sp.bind_address = some a → ':' ∉ a)
    (hrh : ':' ∉ sp.remote_host)
    (hbp : sp.bind_port ≤ 65535) (hrp : sp.remote_port ≤ 65535) :
    parse sp.to_ssh_arg = .ok sp := by
  obtain ⟨ba, bp, rh, rp⟩ := sp
  simp only at hrh hbp hrp
  cases ba with
  | none =>
    have harg : ForwardingSpec.to_ssh_arg
        { bind_address := none, bind_port := bp, remote_host := rh, remote_port := rp }
        = natRepr bp ++ ':' :: (rh ++ ':' :: natRepr rp) := by
      simp [ForwardingSpec.to_ssh_arg]
    rw [harg]
    have hs : splitOnColon (natRepr bp ++ ':' :: (rh ++ ':' :: natRepr rp))
        = [natRepr bp, rh, natRepr rp] := by
      rw [splitOnColon_append _ _ (natRepr_no_colon bp),
        splitOnColon_append _ _ hrh,
        splitOnColon_no_colon _ (natRepr_no_colon rp)]
    rw [parse, hs]
    simp [parse_u16_natRepr bp hbp, parse_u16_natRepr rp hrp]
  | some addr =>
    have haddr : ':' ∉ addr := hba addr rfl
    have harg : ForwardingSpec.to_ssh_arg
        { bind_address := some addr, bind_port := bp, remote_host := rh, remote_port := rp }
        = addr ++ ':' :: (natRepr bp ++ ':' :: (rh ++ ':' :: natRepr rp)) := by
      simp [ForwardingSpec.to_ssh_arg]
    rw [harg]
    have hs : splitOnColon (addr ++ ':' :: (natRepr bp ++ ':' :: (rh ++ ':' :: natRepr rp)))
        = [addr, natRepr bp, rh, natRepr rp] := by
      rw [splitOnColon_append _ _ haddr,
        splitOnColon_append _ _ (natRepr_no_colon bp),
        splitOnColon_append _ _ hrh,
        splitOnColon_no_colon _ (natRepr_no_colon rp)]
    rw [parse, hs]
    simp [parse_u16_natRepr bp hbp, parse_u16_natRepr rp hrp]

/-! Helper lemmas about ceiling division. -/

theorem div_ceil_le_iff (a b n : Nat) (hb : 0 < b) :
    div_ceil a b ≤ n ↔ a ≤ n * b := by
  rw [div_ceil, ← Nat.lt_succ_iff, Nat.div_lt_iff_lt_mul hb, Nat.succ_mul]
  omega

theorem le_mul_div_ceil (a b : Nat) (hb : 0 < b) : a ≤ div_ceil a b * b :=
  (div_ceil_le_iff a b (div_ceil a b) hb).mp (Nat.le_refl _)

/-! Invariant preservation for the per-record check. -/

theorem check_step_preserves_restart_inv (mf bmax : Nat) (env : CheckEnv)
    (info : TunnelInfo) (h : restart_inv mf info) :
    restart_inv mf (check_step mf bmax env info) := by
  unfold restart_inv at h ⊢
  unfold check_step
  by_cases hh : is_healthy_flag env info = true
  · rw [if_pos hh]
    intro hs
    exact absurd hs (by simp)
  · rw [if_neg hh]
    by_cases hfc : mf ≤ info.failure_count + 1
    · rw [if_pos hfc]
      cases hnra : info.next_restart_at with
      | some t =>
        obtain ⟨hfcin, hproc⟩ := h (by rw [hnra]; rfl)
        dsimp only
        by_cases hnow : env.now < t
        · rw [if_pos hnow]
          dsimp only
          intro _
          exact ⟨by omega, hproc⟩
        · rw [if_neg hnow]
          unfold attempt_restart
          cases env.restart_result with
          | ok u =>
            dsimp only
            intro hs
            exact absurd hs (by simp)
          | error e =>
            dsimp only
            intro _
            exact ⟨by omega, rfl⟩
      | none =>
        dsimp only
        intro _
        exact ⟨hfc, rfl⟩
    · rw [if_neg hfc]
      dsimp only
      intro hs
      obtain ⟨hfcin, hproc⟩ := h hs
      exact ⟨by omega, hproc⟩

end Stun

namespace Stun

/-! Generic rejection lemma: the parser splits on every colon, so any input
with at least four colons can match neither the 3-part nor the 4-part shape. -/

theorem parse_error_of_count (s : Str) (h : 4 ≤ s.count ':') :
    isErr (parse s) = true := by
  have hl := splitOnColon_length s
  unfold parse
  rcases hsp : splitOnColon s with _ | ⟨a, _ | ⟨b, _ | ⟨c, _ | ⟨d, _ | ⟨e, t⟩⟩⟩⟩⟩
  · rfl
  · rfl
  · rfl
  · rw [hsp] at hl; simp at hl; omega
  · rw [hsp] at hl; simp at hl; omega
  · rfl

/-- C1: in remote mode, with a live child and a configured remote probe
target whose TCP probe reports `false`, the source still judges the record
healthy: `is_healthy` is computed as bare `process_alive` in remote mode,
discarding the probe outcome `forwarding_healthy = false`.  The claimed
`healthy = process_alive && reachable` does not hold on this tick. -/
theorem C1_remote_probe_result_discarded :
    remote_probe_target cfg_remote spec_r = some ("db.internal".toList, 5432) ∧
    env_r.probe_target = remote_probe_target cfg_remote spec_r ∧
    process_alive_flag env_r info_r = true ∧
    forwarding_healthy_flag env_r info_r = false ∧
    is_healthy_flag env_r info_r = true ∧
    (check_step 3 30 env_r info_r).health = TunnelHealth.Healthy ∧
    (check_step 3 30 env_r info_r).failure_count = 0 := by
  decide

/-- C2 counterexample: `parse "[::1]:80:localhost:80"` does not succeed —
it errors, and in particular does not produce the claimed record with
`bind_address = "[::1]"`. -/
theorem C2_counterexample_bracketed_ipv6 :
    isErr (parse s_ipv6) = true ∧
    parse s_ipv6 ≠ .ok { bind_address := some "[::1]".toList, bind_port := 80,
                         remote_host := "localhost".toList, remote_port := 80 } := by
  decide

/-- C2 amended: the parser splits on every `':'` (no right-to-left scan), so
every input of the form `"[v6]:bport:rhost:rport"` whose bracketed literal
contains a colon — every IPv6 literal — is rejected with an error. -/
theorem C2_parse_rejects_bracketed_bind (v6 bp rh rp : Str) (hv : ':' ∈ v6) :
    isErr (parse ('[' :: v6 ++ ']' :: ':' :: bp ++ ':' :: rh ++ ':' :: rp)) = true := by
  apply parse_error_of_count
  have hpos : 0 < v6.count ':' := List.count_pos_iff.mpr hv
  simp [List.count_append, List.count_cons]
  omega

/-- C2 amended witness at the spec's own example input. -/
theorem C2_witness :
    ':' ∈ "::1".toList ∧
    isErr (parse ('[' :: "::1".toList ++ ']' :: ':' :: "80".toList
      ++ ':' :: "localhost".toList ++ ':' :: "80".toList)) = true :=
  ⟨by decide,
    C2_parse_rejects_bracketed_bind "::1".toList "80".toList "localhost".toList
      "80".toList (by decide)⟩

/-- C9 counterexample: `parse "8080::9000"` succeeds with an empty remote
host instead of returning a `Config` error. -/
theorem C9_counterexample_empty_host :
    parse "8080::9000".toList =
      .ok { bind_address := none, bind_port := 8080,
            remote_host := [], remote_port := 9000 } := by
  decide

/-- C9 amended: neither `ForwardingSpec::parse` nor
`Config::validate_forwarding_spec` requires a non-empty remote host: for all
`u16` ports `p`, `q`, the input `"p::q"` parses to a record with
`remote_host = ""` and also passes spec validation. -/
theorem C9_empty_remote_host_accepted (p q : Nat) (hp : p ≤ 65535) (hq : q ≤ 65535) :
    parse (natRepr p ++ ':' :: ':' :: natRepr q) =
      .ok { bind_address := none, bind_port := p,
            remote_host := [], remote_port := q } ∧
    validate_forwarding_spec (natRepr p ++ ':' :: ':' :: natRepr q) = .ok () := by
  have harg : natRepr p ++ ':' :: ':' :: natRepr q
      = ForwardingSpec.to_ssh_arg
        { bind_address := none, bind_port := p, remote_host := [], remote_port := q } := by
    simp [ForwardingSpec.to_ssh_arg]
  constructor
  · rw [harg]
    exact parse_to_ssh_arg _ (by intro a ha; cases ha) (by simp) hp hq
  · have hs : splitOnColon (natRepr p ++ ':' :: ([] ++ ':' :: natRepr q))
        = [natRepr p, [], natRepr q] := by
      rw [splitOnColon_append _ _ (natRepr_no_colon p),
        splitOnColon_append _ _ (by simp),
        splitOnColon_no_colon _ (natRepr_no_colon q)]
    simp only [List.nil_append] at hs
    rw [validate_forwarding_spec, hs]
    simp [parse_u16_natRepr p hp, parse_u16_natRepr q hq]

/-- C9 amended witness: the concrete input `"8080::9000"`. -/
theorem C9_witness :
    parse (natRepr 8080 ++ ':' :: ':' :: natRepr 9000) =
      .ok { bind_address := none, bind_port := 8080,
            remote_host := [], remote_port := 9000 } ∧
    validate_forwarding_spec (natRepr 8080 ++ ':' :: ':' :: natRepr 9000) = .ok () :=
  C9_empty_remote_host_accepted 8080 9000 (by decide) (by decide)

/-- C3 counterexample: with a configured `backoff_base_secs = 5`, a record
judged healthy commits with `backoff_secs = 1`, not the configured base 5. -/
theorem C3_counterexample_backoff_reset_to_one :
    (TunnelManager.new cfg5).map (fun m => m.backoff_base_secs) = .ok 5 ∧
    is_healthy_flag env_healthy info5 = true ∧
    (check_step 3 30 env_healthy info5).health = TunnelHealth.Healthy ∧
    (check_step 3 30 env_healthy info5).backoff_secs = 1 ∧
    (check_step 3 30 env_healthy info5).backoff_secs ≠ 5 := by
  decide

/-- C3 amended: every healthy commit sets `health = Healthy`,
`failure_count = 0`, `next_restart_at = none` and resets `backoff_secs` to
the constant `1` (the default base), not the configured `backoff_base_secs`;
a successful restart likewise commits `Unknown`, `0`, `none`, `1`. -/
theorem C3_healthy_commit_resets (mf bmax : Nat) (env : CheckEnv)
    (info : TunnelInfo) (h : is_healthy_flag env info = true) :
    ((check_step mf bmax env info).health = TunnelHealth.Healthy ∧
      (check_step mf bmax env info).failure_count = 0 ∧
      (check_step mf bmax env info).next_restart_at = none ∧
      (check_step mf bmax env info).backoff_secs = 1 ∧
      (check_step mf bmax env info).process = info.process) ∧
    ∀ (bmax2 : Nat) (spec : ForwardingSpec) (fc b now : Nat) (info2 : TunnelInfo),
      (attempt_restart bmax2 (.ok ()) spec fc b now info2).health = TunnelHealth.Unknown ∧
      (attempt_restart bmax2 (.ok ()) spec fc b now info2).failure_count = 0 ∧
      (attempt_restart bmax2 (.ok ()) spec fc b now info2).next_restart_at = none ∧
      (attempt_restart bmax2 (.ok ()) spec fc b now info2).backoff_secs = 1 := by
  constructor
  · unfold check_step
    rw [if_pos h]
    exact ⟨rfl, rfl, rfl, rfl, rfl⟩
  · intro bmax2 spec fc b now info2
    unfold attempt_restart
    exact ⟨rfl, rfl, rfl, rfl⟩

/-- C3 amended witness: the concrete healthy tick on `info5`. -/
theorem C3_witness : (check_step 3 30 env_healthy info5).backoff_secs = 1 :=
  (C3_healthy_commit_resets 3 30 env_healthy info5 (by decide)).1.2.2.2.1

/-- C4: a failed restart attempt updates `backoff_secs` to
`min(backoff_secs * 2, backoff_max_secs)` — strict growth while below the
cap, idempotent at the cap — and writes `failure_count` back unchanged,
committing no child and `Down` with a new jittered deadline. -/
theorem C4_failed_restart_backoff (bmax : Nat) (e : StunError)
    (spec : ForwardingSpec) (fc b now : Nat) (info : TunnelInfo)
    (hmax : bmax ≤ U64_MAX) :
    (attempt_restart bmax (.error e) spec fc b now info).backoff_secs = min (b * 2) bmax ∧
    (attempt_restart bmax (.error e) spec fc b now info).failure_count = fc ∧
    (attempt_restart bmax (.error e) spec fc b now info).process = none ∧
    (attempt_restart bmax (.error e) spec fc b now info).health = TunnelHealth.Down ∧
    (1 ≤ b → b < bmax → b < (attempt_restart bmax (.error e) spec fc b now info).backoff_secs) ∧
    (b = bmax → (attempt_restart bmax (.error e) spec fc b now info).backoff_secs = bmax) := by
  have hU : U64_MAX = 18446744073709551615 := rfl
  unfold attempt_restart u64_saturating_mul
  dsimp only
  refine ⟨by omega, rfl, rfl, rfl, by omega, by omega⟩

/-- C4 witness: a concrete failed restart at backoff 4 under cap 30. -/
theorem C4_witness :
    (attempt_restart 30 (.error (.Ssh [])) spec0 5 4 100 info5).backoff_secs = min (4 * 2) 30 ∧
    (attempt_restart 30 (.error (.Ssh [])) spec0 5 4 100 info5).failure_count = 5 ∧
    4 < (attempt_restart 30 (.error (.Ssh [])) spec0 5 4 100 info5).backoff_secs :=
  ⟨(C4_failed_restart_backoff 30 (.Ssh []) spec0 5 4 100 info5 (by decide)).1,
   (C4_failed_restart_backoff 30 (.Ssh []) spec0 5 4 100 info5 (by decide)).2.1,
   (C4_failed_restart_backoff 30 (.Ssh []) spec0 5 4 100 info5 (by decide)).2.2.2.2.1
     (by decide) (by decide)⟩

/-- C5 counterexample: at `b = u64::MAX` (pct is 85 for the test spec) the
saturating multiplication makes `jitter_secs` differ from
`ceil(b * pct / 100)`, and the result falls below the claimed lower bound
`ceil(0.8 * b)`. -/
theorem C5_counterexample_overflow :
    80 + Nat.xor spec0.bind_port spec0.remote_port % 41 = 85 ∧
    jitter_secs b_huge spec0 ≠ div_ceil (b_huge * 85) 100 ∧
    jitter_secs b_huge spec0 < div_ceil (4 * b_huge) 5 := by
  decide

/-- C5 amended: for every base `b ≥ 1` whose product with the maximal
percentage 120 does not exceed `u64::MAX`, `jitter_secs b spec` equals
`ceil(b * pct / 100)` with `pct = 80 + ((bind XOR remote) % 41) ∈ [80, 120]`,
lies in `[ceil(0.8 b), ceil(1.2 b)]`, and depends only on
`(b, bind_port, remote_port)`. -/
theorem C5_jitter_props (b : Nat) (spec : ForwardingSpec) (hb : 1 ≤ b)
    (hno : b * 120 ≤ U64_MAX) :
    80 ≤ 80 + Nat.xor spec.bind_port spec.remote_port % 41 ∧
    80 + Nat.xor spec.bind_port spec.remote_port % 41 ≤ 120 ∧
    jitter_secs b spec =
      div_ceil (b * (80 + Nat.xor spec.bind_port spec.remote_port % 41)) 100 ∧
    div_ceil (4 * b) 5 ≤ jitter_secs b spec ∧
    jitter_secs b spec ≤ div_ceil (6 * b) 5 ∧
    ∀ spec2 : ForwardingSpec, spec2.bind_port = spec.bind_port →
      spec2.remote_port = spec.remote_port → jitter_secs b spec2 = jitter_secs b spec := by
  have hmod : Nat.xor spec.bind_port spec.remote_port % 41 < 41 :=
    Nat.mod_lt _ (by omega)
  have hpct : 80 + Nat.xor spec.bind_port spec.remote_port % 41 ≤ 120 := by omega
  have hbpct : b * (80 + Nat.xor spec.bind_port spec.remote_port % 41) ≤ U64_MAX :=
    le_trans (Nat.mul_le_mul_left b hpct) hno
  have hsat : u64_saturating_mul b (80 + Nat.xor spec.bind_port spec.remote_port % 41)
      = b * (80 + Nat.xor spec.bind_port spec.remote_port % 41) := by
    unfold u64_saturating_mul
    omega
  have heq : jitter_secs b spec =
      div_ceil (b * (80 + Nat.xor spec.bind_port spec.remote_port % 41)) 100 := by
    unfold jitter_secs
    dsimp only
    rw [hsat]
  refine ⟨by omega, hpct, heq, ?_, ?_, ?_⟩
  · rw [heq, div_ceil_le_iff _ _ _ (by omega)]
    have hD := le_mul_div_ceil
      (b * (80 + Nat.xor spec.bind_port spec.remote_port % 41)) 100 (by omega)
    have h80 : b * 80 ≤ b * (80 + Nat.xor spec.bind_port spec.remote_port % 41) :=
      Nat.mul_le_mul_left b (by omega)
    omega
  · rw [heq, div_ceil_le_iff _ _ _ (by omega)]
    have hE := le_mul_div_ceil (6 * b) 5 (by omega)
    have h120 : b * (80 + Nat.xor spec.bind_port spec.remote_port % 41) ≤ b * 120 :=
      Nat.mul_le_mul_left b hpct
    omega
  · intro spec2 h1 h2
    unfold jitter_secs
    dsimp only
    rw [h1, h2]

/-- C5 amended witness: the spec's own scenario — `b = 4`,
`spec = 8080:127.0.0.1:9000`; the jittered value lies in `[4, 5]`. -/
theorem C5_witness :
    jitter_secs 4 spec0 =
      div_ceil (4 * (80 + Nat.xor spec0.bind_port spec0.remote_port % 41)) 100 ∧
    div_ceil (4 * 4) 5 ≤ jitter_secs 4 spec0 ∧
    jitter_secs 4 spec0 ≤ div_ceil (6 * 4) 5 :=
  ⟨(C5_jitter_props 4 spec0 (by decide) (by decide)).2.2.1,
   (C5_jitter_props 4 spec0 (by decide) (by decide)).2.2.2.1,
   (C5_jitter_props 4 spec0 (by decide) (by decide)).2.2.2.2.1⟩

/-- C6 counterexample: the round trip fails on the valid canonical
bracketed-IPv6 string `"[::1]:80:localhost:80"` (parse errors there). -/
theorem C6_counterexample_roundtrip :
    Except.map ForwardingSpec.to_ssh_arg (parse s_ipv6) ≠ .ok s_ipv6 := by
  decide

/-- C6 amended: for every spec whose bind address and remote host contain no
colon (so for every valid canonical string without bracketed IPv6
literals), `parse` inverts `to_ssh_arg` and the round trip holds. -/
theorem C6_roundtrip (sp : ForwardingSpec)
    (hba : ∀ a, sp.bind_address = some a → ':' ∉ a) (hrh : ':' ∉ sp.remote_host)
    (hbp : sp.bind_port ≤ 65535) (hrp : sp.remote_port ≤ 65535) :
    parse sp.to_ssh_arg = .ok sp ∧
    Except.map ForwardingSpec.to_ssh_arg (parse sp.to_ssh_arg) = .ok sp.to_ssh_arg := by
  have h := parse_to_ssh_arg sp hba hrh hbp hrp
  exact ⟨h, by rw [h]; rfl⟩

/-- C6 amended witness: the 4-part test spec `0.0.0.0:8080:192.168.1.10:9000`. -/
theorem C6_witness :
    parse spec4.to_ssh_arg = .ok spec4 ∧
    Except.map ForwardingSpec.to_ssh_arg (parse spec4.to_ssh_arg) = .ok spec4.to_ssh_arg :=
  C6_roundtrip spec4
    (by intro a ha; simp [spec4] at ha; subst ha; decide)
    (by decide) (by decide) (by decide)

/-- C7: on every reachable record state — after initialization, the initial
spawn commit, any sequence of per-record check commits, and shutdown — a set
`next_restart_at` implies `failure_count ≥ max_failures` and no child. -/
theorem C7_restart_inv_reachable (mf bmax base : Nat) (info : TunnelInfo)
    (h : Reachable mf bmax base info) : restart_inv mf info := by
  induction h with
  | init spec =>
    intro hs
    exact absurd hs (by simp [init_info])
  | spawn spec res =>
    intro hs
    exfalso
    cases res <;> simp [spawn_commit, init_info] at hs
  | check info env hr ih => exact check_step_preserves_restart_inv _ _ _ _ ih
  | stop info hr ih =>
    intro hs
    simp only [Option.isSome] at hs
    exact ⟨(ih hs).1, rfl⟩

/-- C7 witness: the invariant holds of the freshly initialized record. -/
theorem C7_witness : restart_inv 3 (init_info 1 spec0) :=
  C7_restart_inv_reachable 3 30 1 (init_info 1 spec0) (Reachable.init spec0)

/-- C8: when every forwarding spec parses, startup returns `Ok`: every
record is committed — failed spawns as `Down` with no child, successful
ones with a child, `Unknown` health and zero failures — and a spawn error
never aborts the startup. -/
theorem C8_initial_spawn (spawn : ForwardingSpec → Except StunError Unit)
    (m : TunnelManager) (specs : List ForwardingSpec)
    (hp : parse_all m.config.forwarding_list = .ok specs) :
    ∃ ts, manager_start_records m spawn = .ok ts ∧ ts.length = specs.length ∧
      ∀ i, i < specs.length → ∃ sp key info, specs[i]? = some sp ∧
        ts[i]? = some (key, info) ∧ key = sp.to_ssh_arg ∧ info.spec = sp ∧
        (∀ e, spawn sp = .error e →
          info.process = none ∧ info.health = TunnelHealth.Down) ∧
        (spawn sp = .ok () → info.process = some () ∧
          info.health = TunnelHealth.Unknown ∧ info.failure_count = 0) := by
  unfold manager_start_records
  rw [hp]
  unfold start_all_tunnels init_records
  refine ⟨_, rfl, by simp, ?_⟩
  intro i hi
  have hsp : specs[i]? = some specs[i] := List.getElem?_eq_getElem hi
  refine ⟨specs[i], specs[i].to_ssh_arg,
    spawn_commit (spawn specs[i]) (init_info m.backoff_base_secs specs[i]),
    hsp, ?_, rfl, ?_, ?_, ?_⟩
  · simp only [List.getElem?_map, hsp, Option.map_some]
    simp [init_info]
  · cases hspawn : spawn specs[i] <;> simp [spawn_commit, init_info]
  · intro e he
    simp [spawn_commit, init_info, he]
  · intro he
    simp [spawn_commit, init_info, he]

/-- C8 witness: the test config with a spawner failing on the first spec. -/
theorem C8_witness :
    ∃ ts, manager_start_records m_test spawn_test = .ok ts ∧
      ts.length = specs_test.length ∧
      ∀ i, i < specs_test.length → ∃ sp key info, specs_test[i]? = some sp ∧
        ts[i]? = some (key, info) ∧ key = sp.to_ssh_arg ∧ info.spec = sp ∧
        (∀ e, spawn_test sp = .error e →
          info.process = none ∧ info.health = TunnelHealth.Down) ∧
        (spawn_test sp = .ok () → info.process = some () ∧
          info.health = TunnelHealth.Unknown ∧ info.failure_count = 0) :=
  C8_initial_spawn spawn_test m_test specs_test (by decide)

/-- C10: a supervisor built by `new` alone (no `start`) has an empty record
map, so `get_status` returns the empty snapshot rather than one entry per
configured forwarding. -/
theorem C10_new_manager_empty_status (c : Config) (m : TunnelManager)
    (h : TunnelManager.new c = .ok m) :
    m.tunnels = [] ∧ m.get_status = [] := by
  unfold TunnelManager.new at h
  cases hv : c.validate with
  | error e =>
    rw [hv] at h
    cases h
  | ok u =>
    rw [hv] at h
    cases h
    exact ⟨rfl, rfl⟩

/-- C10 witness: the test config builds `m_test`, whose status is empty. -/
theorem C10_witness : m_test.tunnels = [] ∧ m_test.get_status = [] :=
  C10_new_manager_empty_status cfg_test m_test (by decide)

end Stun
